import Mathlib

/-!
Shallow embedding of osquery's Windows WMI wrapper
(src/osquery/core/windows/wmi.cpp): the `WmiResultItem` typed getters over
COM `VARIANT` property values and the `WmiRequest` constructor / move /
destructor.  External COM calls (property lookup, SWbemDateTime helper,
enumerator pulls) are modelled by explicit environments recording each
call's HRESULT outcome; machine integers are modelled as `Nat`/`Int` with
explicit reductions modulo powers of two where the C++ union member
accesses narrow the stored payload.
-/

namespace osquery

/-- The VARIANT runtime type tags used by wmi.cpp.  `VT_ARRAY_BSTR` stands
for the combined tag `VT_BSTR | VT_ARRAY` tested by GetVectorOfStrings;
`VT_OTHER` stands for any tag distinct from all the tested ones. -/
inductive VarType
  | VT_EMPTY
  | VT_BOOL
  | VT_UI1
  | VT_UI2
  | VT_UINT
  | VT_I4
  | VT_UI4
  | VT_I8
  | VT_UI8
  | VT_BSTR
  | VT_ARRAY_BSTR
deriving DecidableEq

/-- A one-dimensional SAFEARRAY of BSTR: its lower and upper bound (as
returned by SafeArrayGetLBound / SafeArrayGetUBound) and the element data
exposed by SafeArrayAccessData.  A well-formed array has exactly
`ubound - lbound + 1` elements in `data`. -/
structure SafeArr where
  lbound : Int
  ubound : Int
  data : List String
deriving DecidableEq

/-- Interpret the low 32 bits of a payload as a signed 32-bit integer
(the VARIANT union member `lVal`, of C type LONG). -/
def toSigned32 (n : Nat) : Int :=
  if n % 2 ^ 32 < 2 ^ 31 then (n % 2 ^ 32 : Int) else (n % 2 ^ 32 : Int) - 2 ^ 32

/-- A COM VARIANT as wmi.cpp observes it: the runtime tag `vt`, the raw
64-bit numeric payload region (the union members `bVal`, `uiVal`, `lVal`,
`boolVal`, `llVal`, ... all alias prefixes of it, little-endian), the
`bstrVal` member and the `parray` member. -/
structure Variant where
  vt : VarType
  bits : Nat
  bstr : String
  parray : SafeArr
deriving DecidableEq

/-- VARIANT union member `bVal` (BYTE, 8 bits). -/
def Variant.bVal (v : Variant) : Nat := v.bits % 2 ^ 8

/-- VARIANT union member `uiVal` (USHORT, 16 bits).  Note: wmi.cpp reads
this 16-bit member both in GetUnsignedShort and in GetUnsignedInt32. -/
def Variant.uiVal (v : Variant) : Nat := v.bits % 2 ^ 16

/-- VARIANT union member `boolVal` (VARIANT_BOOL, 16 bits); VARIANT_TRUE
is the bit pattern 0xFFFF. -/
def Variant.boolVal (v : Variant) : Nat := v.bits % 2 ^ 16

/-- VARIANT union member `lVal` (LONG, signed 32 bits). -/
def Variant.lVal (v : Variant) : Int := toSigned32 v.bits

/-- VARIANT union member `llVal` (LONGLONG, signed 64 bits): the full
payload of a VT_I8 property. -/
def Variant.llVal (v : Variant) : Int :=
  if v.bits % 2 ^ 64 < 2 ^ 63 then (v.bits % 2 ^ 64 : Int)
  else (v.bits % 2 ^ 64 : Int) - 2 ^ 64

/-- VARIANT union member `ullVal` (ULONGLONG, unsigned 64 bits): the full
payload of a VT_UI8 property. -/
def Variant.ullVal (v : Variant) : Nat := v.bits % 2 ^ 64

/-- One IWbemClassObject: a bag of named, dynamically typed properties.
`Get` (the COM property lookup) succeeds exactly on the names present. -/
structure IWbemClassObject where
  props : List (String × Variant)
deriving DecidableEq

/-- The result of `result_->Get(name, 0, &value, nullptr, nullptr)`:
`some value` when the call returns S_OK, `none` when it fails. -/
def IWbemClassObject.get (o : IWbemClassObject) (name : String) : Option Variant :=
  (o.props.find? (fun p => p.1 = name)).map (fun p => p.2)

/-- An osquery Status: outcome code (0 = success) plus message. -/
structure Status where
  code : Int
  message : String
deriving DecidableEq

/-- Status(0): the success status.  Modelled from the spec: the Status
class declaration lives in a header outside this file; the spec fixes
code 0 = success, and the default message is the conventional "OK". -/
def Status.success : Status := ⟨0, "OK"⟩

/-- A WmiResultItem: wraps the owned IWbemClassObject handle `result_`,
which is null (`none`) in the empty / moved-from state. -/
structure WmiResultItem where
  result_ : Option IWbemClassObject
deriving DecidableEq

/-- The WmiResultItem move constructor: the destination takes the handle,
the source is left with `result_ = nullptr`. -/
def WmiResultItem.moveFrom (src : WmiResultItem) : WmiResultItem × WmiResultItem :=
  (⟨src.result_⟩, ⟨none⟩)

/-- Observable outcome of one scalar / string / vector getter call:
the returned Status, the final value of the caller's output parameter
`ret`, and the number of VariantClear calls performed on `value`.
A getter returns `none` (no GetResult at all) when it dereferences the
null `result_` handle: wmi.cpp has no null check, so that path is a
crash / undefined behaviour, not a status return. -/
structure GetResult (α : Type) where
  status : Status
  out : α
  clears : Nat
deriving DecidableEq

/-- Status(-1, "Error retrieving data from WMI query."): the lookup
failure status shared by the scalar and vector getters. -/
def retrievalStatus : Status := ⟨-1, "Error retrieving data from WMI query."⟩

/-- Status(-1, "Invalid data type returned."): the type mismatch status
shared by the scalar and vector getters. -/
def mismatchStatus : Status := ⟨-1, "Invalid data type returned."⟩

/-- WmiResultItem::GetBool (wmi.cpp lines 47-62). -/
def WmiResultItem.GetBool (it : WmiResultItem) (name : String) (ret : Bool) :
    Option (GetResult Bool) :=
  match it.result_ with
  | none => none
  | some obj =>
    match obj.get name with
    | none => some ⟨retrievalStatus, ret, 0⟩
    | some value =>
      if value.vt ≠ VarType.VT_BOOL then
        some ⟨mismatchStatus, ret, 1⟩
      else
        some ⟨Status.success, decide (value.boolVal = 0xFFFF), 1⟩

/-- WmiResultItem::GetUChar (wmi.cpp lines 115-130). -/
def WmiResultItem.GetUChar (it : WmiResultItem) (name : String) (ret : Nat) :
    Option (GetResult Nat) :=
  match it.result_ with
  | none => none
  | some obj =>
    match obj.get name with
    | none => some ⟨retrievalStatus, ret, 0⟩
    | some value =>
      if value.vt ≠ VarType.VT_UI1 then
        some ⟨mismatchStatus, ret, 1⟩
      else
        some ⟨Status.success, value.bVal, 1⟩

/-- WmiResultItem::GetUnsignedShort (wmi.cpp lines 132-148). -/
def WmiResultItem.GetUnsignedShort (it : WmiResultItem) (name : String) (ret : Nat) :
    Option (GetResult Nat) :=
  match it.result_ with
  | none => none
  | some obj =>
    match obj.get name with
    | none => some ⟨retrievalStatus, ret, 0⟩
    | some value =>
      if value.vt ≠ VarType.VT_UI2 then
        some ⟨mismatchStatus, ret, 1⟩
      else
        some ⟨Status.success, value.uiVal, 1⟩

/-- WmiResultItem::GetUnsignedInt32 (wmi.cpp lines 150-166).  The source
assigns `ret = value.uiVal`, the 16-bit USHORT union member. -/
def WmiResultItem.GetUnsignedInt32 (it : WmiResultItem) (name : String) (ret : Nat) :
    Option (GetResult Nat) :=
  match it.result_ with
  | none => none
  | some obj =>
    match obj.get name with
    | none => some ⟨retrievalStatus, ret, 0⟩
    | some value =>
      if value.vt ≠ VarType.VT_UINT then
        some ⟨mismatchStatus, ret, 1⟩
      else
        some ⟨Status.success, value.uiVal, 1⟩

/-- WmiResultItem::GetLong (wmi.cpp lines 168-182). -/
def WmiResultItem.GetLong (it : WmiResultItem) (name : String) (ret : Int) :
    Option (GetResult Int) :=
  match it.result_ with
  | none => none
  | some obj =>
    match obj.get name with
    | none => some ⟨retrievalStatus, ret, 0⟩
    | some value =>
      if value.vt ≠ VarType.VT_I4 then
        some ⟨mismatchStatus, ret, 1⟩
      else
        some ⟨Status.success, value.lVal, 1⟩

/-- WmiResultItem::GetUnsignedLong (wmi.cpp lines 184-199).  The source
assigns the signed 32-bit member `lVal` to the unsigned long output; the
C++ conversion reduces it modulo 2^32. -/
def WmiResultItem.GetUnsignedLong (it : WmiResultItem) (name : String) (ret : Nat) :
    Option (GetResult Nat) :=
  match it.result_ with
  | none => none
  | some obj =>
    match obj.get name with
    | none => some ⟨retrievalStatus, ret, 0⟩
    | some value =>
      if value.vt ≠ VarType.VT_UI4 then
        some ⟨mismatchStatus, ret, 1⟩
      else
        some ⟨Status.success, (value.lVal % (2 ^ 32 : Int)).toNat, 1⟩

/-- WmiResultItem::GetLongLong (wmi.cpp lines 201-216).  The source
checks the tag VT_I8 but assigns `ret = value.lVal`: the 32-bit LONG
union member, sign-extended into the 64-bit output. -/
def WmiResultItem.GetLongLong (it : WmiResultItem) (name : String) (ret : Int) :
    Option (GetResult Int) :=
  match it.result_ with
  | none => none
  | some obj =>
    match obj.get name with
    | none => some ⟨retrievalStatus, ret, 0⟩
    | some value =>
      if value.vt ≠ VarType.VT_I8 then
        some ⟨mismatchStatus, ret, 1⟩
      else
        some ⟨Status.success, value.lVal, 1⟩

/-- WmiResultItem::GetUnsignedLongLong (wmi.cpp lines 218-233).  The
source checks the tag VT_UI8 but assigns `ret = value.lVal`: the 32-bit
LONG union member, converted to unsigned long long modulo 2^64. -/
def WmiResultItem.GetUnsignedLongLong (it : WmiResultItem) (name : String) (ret : Nat) :
    Option (GetResult Nat) :=
  match it.result_ with
  | none => none
  | some obj =>
    match obj.get name with
    | none => some ⟨retrievalStatus, ret, 0⟩
    | some value =>
      if value.vt ≠ VarType.VT_UI8 then
        some ⟨mismatchStatus, ret, 1⟩
      else
        some ⟨Status.success, (value.lVal % (2 ^ 64 : Int)).toNat, 1⟩

/-- WmiResultItem::GetString (wmi.cpp lines 235-252).  On lookup failure
and on type mismatch the source assigns `ret = ""` before returning; the
wide-to-narrow conversion bstrToString is modelled as the identity. -/
def WmiResultItem.GetString (it : WmiResultItem) (name : String) (ret : String) :
    Option (GetResult String) :=
  match it.result_ with
  | none => none
  | some obj =>
    match obj.get name with
    | none => some ⟨retrievalStatus, "", 0⟩
    | some value =>
      if value.vt ≠ VarType.VT_BSTR then
        some ⟨mismatchStatus, "", 1⟩
      else
        some ⟨Status.success, value.bstr, 1⟩

/-- WmiResultItem::GetVectorOfStrings (wmi.cpp lines 254-280).  The
element count is derived as `ubound - lbound + 1`; the loop pushes
`pData[i]` for `0 <= i < count` onto the caller's vector without
clearing it first (modelled by `take` on the array data, which equals
the whole data of a well-formed array). -/
def WmiResultItem.GetVectorOfStrings (it : WmiResultItem) (name : String)
    (ret : List String) : Option (GetResult (List String)) :=
  match it.result_ with
  | none => none
  | some obj =>
    match obj.get name with
    | none => some ⟨retrievalStatus, ret, 0⟩
    | some value =>
      if value.vt ≠ VarType.VT_ARRAY_BSTR then
        some ⟨mismatchStatus, ret, 1⟩
      else
        let count : Int := value.parray.ubound - value.parray.lbound + 1
        some ⟨Status.success, ret ++ value.parray.data.take count.toNat, 1⟩

/-- Outcomes of the external calls GetDateTime makes after the property
lookup: CoCreateInstance for the SWbemDateTime helper, put_Value on it,
and GetFileTime (SUCCEEDED means HRESULT >= 0), plus the 64-bit signed
value the CRT parse _wtoi64 extracts from the rendered file-time string
on the success path. -/
structure DateTimeEnv where
  createHr : Int
  putHr : Int
  fileTimeHr : Int
  fileTimeVal : Int
deriving DecidableEq

/-- Observable outcome of one GetDateTime call: the returned Status, the
final (dwLowDateTime, dwHighDateTime) halves of the caller's FILETIME
output parameter, the number of VariantClear calls on `value`, whether
the SWbemDateTime helper was created and how often it was Released, and
whether the rendered file-time BSTR was produced and how often it was
freed with SysFreeString. -/
structure DateTimeResult where
  status : Status
  ft : Nat × Nat
  clears : Nat
  dtCreated : Bool
  dtReleases : Nat
  strAllocated : Bool
  sysFrees : Nat
deriving DecidableEq

/-- WmiResultItem::GetDateTime (wmi.cpp lines 64-113).  The property must
be tagged VT_BSTR; the helper conversion steps are driven by `env`.  On
the success path the parsed value is stored through ULARGE_INTEGER
QuadPart (an unsigned 64-bit member, so the signed parse result is
reduced modulo 2^64) and split into low / high 32-bit halves.  As in the
other getters, a null `result_` handle is dereferenced without a check:
that path yields `none` (crash / undefined behaviour). -/
def WmiResultItem.GetDateTime (it : WmiResultItem) (name : String)
    (is_local : Bool) (ft : Nat × Nat) (env : DateTimeEnv) :
    Option DateTimeResult :=
  match it.result_ with
  | none => none
  | some obj =>
    match obj.get name with
    | none =>
      some ⟨⟨-1, "Error retrieving datetime from WMI query result."⟩,
            ft, 0, false, 0, false, 0⟩
    | some value =>
      if value.vt ≠ VarType.VT_BSTR then
        some ⟨⟨-1, "Expected VT_BSTR, got something else."⟩,
              ft, 1, false, 0, false, 0⟩
      else if env.createHr < 0 then
        some ⟨⟨-1, "Failed to create SWbemDateTime object."⟩,
              ft, 1, false, 0, false, 0⟩
      else if env.putHr < 0 then
        some ⟨⟨-1, "Failed to set SWbemDateTime value."⟩,
              ft, 1, true, 1, false, 0⟩
      else if env.fileTimeHr < 0 then
        some ⟨⟨-1, "GetFileTime failed."⟩,
              ft, 1, true, 1, false, 0⟩
      else
        let q : Nat := (env.fileTimeVal % (2 ^ 64 : Int)).toNat
        some ⟨Status.success, (q % 2 ^ 32, q / 2 ^ 32), 1, true, 1, true, 1⟩

/-- One answer of the enumerator call `enum_->Next(WBEM_INFINITE, 1,
&result, &result_count)`: the HRESULT, the returned count and the object
written to `result` when the count is positive. -/
structure PullStep where
  hr : Int
  count : Nat
  obj : IWbemClassObject
deriving DecidableEq

/-- Outcomes of the external calls the WmiRequest constructor makes:
CoInitializeSecurity (whose result the source overwrites unchecked),
CoCreateInstance for the locator, ConnectServer, ExecQuery (each
compared against S_OK = 0), and the sequence of enumerator answers. -/
structure WmiEnv where
  securityHr : Int
  locatorHr : Int
  connectHr : Int
  execHr : Int
  pulls : List PullStep
deriving DecidableEq

/-- The drain loop of the WmiRequest constructor (wmi.cpp lines 320-329):
starting from hr = WBEM_S_NO_ERROR (= 0), call Next; when SUCCEEDED(hr)
and the count is positive the object is collected; the loop repeats
exactly while the returned hr is 0. -/
def drain : List PullStep → List IWbemClassObject
  | [] => []
  | s :: rest =>
      (if 0 ≤ s.hr ∧ 0 < s.count then [s.obj] else []) ++
      (if s.hr = 0 then drain rest else [])

/-- The state of a WmiRequest after construction, move or destruction:
whether each of the three connection handles (`locator_`, `services_`,
`enum_`) is non-null, the owned result sequence `results_`, and the
overall status.  `status_ = none` models a Status member that the
constructor never assigned (it is only ever written at wmi.cpp line 331);
its declaration and default value live in a header outside this tree. -/
structure WmiRequest where
  locator_ : Bool
  services_ : Bool
  enum_ : Bool
  results_ : List WmiResultItem
  status_ : Option Status
deriving DecidableEq

/-- The WmiRequest constructor (wmi.cpp lines 282-332) as a function of
the external call outcomes.  Each failing stage nulls its own handle and
returns at once, leaving every later handle null, the result sequence
empty and `status_` unassigned; only when execution succeeds is the
enumerator drained and `status_ = Status(0)` assigned. -/
def WmiRequest.construct (env : WmiEnv) : WmiRequest :=
  if env.locatorHr ≠ 0 then
    ⟨false, false, false, [], none⟩
  else if env.connectHr ≠ 0 then
    ⟨true, false, false, [], none⟩
  else if env.execHr ≠ 0 then
    ⟨true, true, false, [], none⟩
  else
    ⟨true, true, true,
     (drain env.pulls).map (fun o => ⟨some o⟩),
     some Status.success⟩

/-- The WmiRequest move constructor (wmi.cpp lines 334-343): the three
handles are swapped into the destination (first member of the pair) and
the source (second member) is left with null handles; `results_` and
`status_` are not mentioned by the move constructor, so the destination
gets a default-constructed empty vector and default status while the
source keeps its own. -/
def WmiRequest.moveFrom (src : WmiRequest) : WmiRequest × WmiRequest :=
  (⟨src.locator_, src.services_, src.enum_, [], none⟩,
   ⟨false, false, false, src.results_, src.status_⟩)

/-- Number of Release calls the WmiRequest destructor (wmi.cpp lines
345-362) performs on the three connection handles. -/
def WmiRequest.handleReleases (r : WmiRequest) : Nat :=
  (if r.enum_ then 1 else 0) + (if r.services_ then 1 else 0) +
    (if r.locator_ then 1 else 0)

/-- Number of Release calls the WmiRequest destructor performs through
`results_.clear()`: one per held (non-null) result object. -/
def WmiRequest.resultReleases (r : WmiRequest) : Nat :=
  r.results_.countP (fun it => it.result_.isSome)

/-- Total Release calls performed by destroying a WmiRequest. -/
def WmiRequest.destructorReleases (r : WmiRequest) : Nat :=
  r.resultReleases + r.handleReleases

/-- A sample empty SAFEARRAY value used in concrete instances. -/
def arr0 : SafeArr := ⟨0, -1, []⟩

/-- A sample object with no properties: every lookup on it fails. -/
def objEmpty : IWbemClassObject := ⟨[]⟩

/-- A sample object holding one VT_BSTR property named p. -/
def objBstr : IWbemClassObject := ⟨[("p", ⟨VarType.VT_BSTR, 0, "t", arr0⟩)]⟩

/-- C1: every typed getter called on an empty (moved-from) WmiResultItem
dereferences the null `result_` handle: the call is a crash / undefined
behaviour (`none`), not a returned RetrievalError status — wmi.cpp has no
null-handle branch in any getter. -/
theorem C1_moved_from_getter_crashes (obj : IWbemClassObject) (name : String)
    (b : Bool) (n : Nat) (i : Int) (s : String) (vec : List String)
    (loc : Bool) (ft : Nat × Nat) (env : DateTimeEnv) :
    WmiResultItem.GetBool (WmiResultItem.moveFrom ⟨some obj⟩).2 name b = none ∧
    WmiResultItem.GetUChar (WmiResultItem.moveFrom ⟨some obj⟩).2 name n = none ∧
    WmiResultItem.GetUnsignedShort (WmiResultItem.moveFrom ⟨some obj⟩).2 name n = none ∧
    WmiResultItem.GetUnsignedInt32 (WmiResultItem.moveFrom ⟨some obj⟩).2 name n = none ∧
    WmiResultItem.GetLong (WmiResultItem.moveFrom ⟨some obj⟩).2 name i = none ∧
    WmiResultItem.GetUnsignedLong (WmiResultItem.moveFrom ⟨some obj⟩).2 name n = none ∧
    WmiResultItem.GetLongLong (WmiResultItem.moveFrom ⟨some obj⟩).2 name i = none ∧
    WmiResultItem.GetUnsignedLongLong (WmiResultItem.moveFrom ⟨some obj⟩).2 name n = none ∧
    WmiResultItem.GetString (WmiResultItem.moveFrom ⟨some obj⟩).2 name s = none ∧
    WmiResultItem.GetVectorOfStrings (WmiResultItem.moveFrom ⟨some obj⟩).2 name vec = none ∧
    WmiResultItem.GetDateTime (WmiResultItem.moveFrom ⟨some obj⟩).2 name loc ft env = none :=
  ⟨rfl, rfl, rfl, rfl, rfl, rfl, rfl, rfl, rfl, rfl, rfl⟩

/-- C4: GetLongLong on a VT_I8 property and GetUnsignedLongLong on a
VT_UI8 property whose full 64-bit payload is 2^32 both return a success
status but assign 0 to the output: the source reads the 32-bit union
member lVal, truncating the payload instead of copying it. -/
theorem C4_longlong_getters_truncate :
    WmiResultItem.GetLongLong
        ⟨some ⟨[("p", ⟨VarType.VT_I8, 2 ^ 32, "", arr0⟩)]⟩⟩ "p" 0 =
      some ⟨Status.success, 0, 1⟩ ∧
    (⟨VarType.VT_I8, 2 ^ 32, "", arr0⟩ : Variant).llVal = 2 ^ 32 ∧
    WmiResultItem.GetUnsignedLongLong
        ⟨some ⟨[("p", ⟨VarType.VT_UI8, 2 ^ 32, "", arr0⟩)]⟩⟩ "p" 0 =
      some ⟨Status.success, 0, 1⟩ ∧
    (⟨VarType.VT_UI8, 2 ^ 32, "", arr0⟩ : Variant).ullVal = 2 ^ 32 ∧
    (0 : Int) ≠ 2 ^ 32 ∧ (0 : Nat) ≠ 2 ^ 32 := by
  decide

/-- C2 counterexample: GetString called with the output parameter holding
"keep" on a property tagged VT_I4 returns the type-mismatch status but
overwrites the output with the empty string — the output parameter is
mutated, contrary to the claim. -/
theorem C2_getstring_mismatch_mutates :
    WmiResultItem.GetString
        ⟨some ⟨[("p", ⟨VarType.VT_I4, 7, "", arr0⟩)]⟩⟩ "p" "keep" =
      some ⟨mismatchStatus, "", 1⟩ ∧ ("" : String) ≠ "keep" := by
  decide

/-- C2 amended: on a type mismatch every getter returns the mismatch
status (releasing the payload once); the scalar, vector and date-time
getters leave their output parameter exactly as it was, but GetString
overwrites its string output with the empty string. -/
theorem C2_amended_mismatch (obj : IWbemClassObject) (name : String) (v : Variant)
    (hv : obj.get name = some v)
    (b : Bool) (n : Nat) (i : Int) (s : String) (vec : List String)
    (loc : Bool) (ft : Nat × Nat) (env : DateTimeEnv) :
    (v.vt ≠ VarType.VT_BOOL →
      WmiResultItem.GetBool ⟨some obj⟩ name b = some ⟨mismatchStatus, b, 1⟩) ∧
    (v.vt ≠ VarType.VT_UI1 →
      WmiResultItem.GetUChar ⟨some obj⟩ name n = some ⟨mismatchStatus, n, 1⟩) ∧
    (v.vt ≠ VarType.VT_UI2 →
      WmiResultItem.GetUnsignedShort ⟨some obj⟩ name n = some ⟨mismatchStatus, n, 1⟩) ∧
    (v.vt ≠ VarType.VT_UINT →
      WmiResultItem.GetUnsignedInt32 ⟨some obj⟩ name n = some ⟨mismatchStatus, n, 1⟩) ∧
    (v.vt ≠ VarType.VT_I4 →
      WmiResultItem.GetLong ⟨some obj⟩ name i = some ⟨mismatchStatus, i, 1⟩) ∧
    (v.vt ≠ VarType.VT_UI4 →
      WmiResultItem.GetUnsignedLong ⟨some obj⟩ name n = some ⟨mismatchStatus, n, 1⟩) ∧
    (v.vt ≠ VarType.VT_I8 →
      WmiResultItem.GetLongLong ⟨some obj⟩ name i = some ⟨mismatchStatus, i, 1⟩) ∧
    (v.vt ≠ VarType.VT_UI8 →
      WmiResultItem.GetUnsignedLongLong ⟨some obj⟩ name n = some ⟨mismatchStatus, n, 1⟩) ∧
    (v.vt ≠ VarType.VT_BSTR →
      WmiResultItem.GetString ⟨some obj⟩ name s = some ⟨mismatchStatus, "", 1⟩) ∧
    (v.vt ≠ VarType.VT_ARRAY_BSTR →
      WmiResultItem.GetVectorOfStrings ⟨some obj⟩ name vec = some ⟨mismatchStatus, vec, 1⟩) ∧
    (v.vt ≠ VarType.VT_BSTR →
      WmiResultItem.GetDateTime ⟨some obj⟩ name loc ft env =
        some ⟨⟨-1, "Expected VT_BSTR, got something else."⟩, ft, 1, false, 0, false, 0⟩) := by
  refine ⟨?_, ?_, ?_, ?_, ?_, ?_, ?_, ?_, ?_, ?_, ?_⟩ <;>
    intro h <;>
    simp [WmiResultItem.GetBool, WmiResultItem.GetUChar, WmiResultItem.GetUnsignedShort,
      WmiResultItem.GetUnsignedInt32, WmiResultItem.GetLong, WmiResultItem.GetUnsignedLong,
      WmiResultItem.GetLongLong, WmiResultItem.GetUnsignedLongLong, WmiResultItem.GetString,
      WmiResultItem.GetVectorOfStrings, WmiResultItem.GetDateTime, hv, h]

/-- C2 amended witness: the boolean getter at a concrete VT_I4 property
returns the mismatch status and leaves the output parameter (true)
untouched. -/
theorem C2_amended_mismatch_witness :
    WmiResultItem.GetBool
        ⟨some ⟨[("p", ⟨VarType.VT_I4, 7, "", arr0⟩)]⟩⟩ "p" true =
      some ⟨mismatchStatus, true, 1⟩ :=
  (C2_amended_mismatch ⟨[("p", ⟨VarType.VT_I4, 7, "", arr0⟩)]⟩ "p"
      ⟨VarType.VT_I4, 7, "", arr0⟩ (by decide) true 0 0 "" [] false (0, 0)
      ⟨0, 0, 0, 0⟩).1 (by decide)

/-- C3 counterexample: when locator creation fails (a nonzero HRESULT),
the constructor returns early without ever assigning `status_`; the
request carries no failure status at all — in particular no status with
a nonzero outcome code and a failure message. -/
theorem C3_failure_status_never_assigned :
    (WmiRequest.construct ⟨0, 1, 0, 0, []⟩).status_ = none ∧
    ¬ ∃ s : Status, (WmiRequest.construct ⟨0, 1, 0, 0, []⟩).status_ = some s ∧
        s.code ≠ 0 := by
  have h1 : (WmiRequest.construct ⟨0, 1, 0, 0, []⟩).status_ = none := by decide
  refine ⟨h1, ?_⟩
  rintro ⟨s, hs, -⟩
  rw [h1] at hs
  cases hs

/-- C3 amended: every failing stage of construction (locator creation,
namespace binding, query execution) leaves all handles from the failure
point on null, executes no later stage, leaves the result sequence empty,
and leaves the overall status unassigned (the constructor returns before
the only assignment to `status_`). -/
theorem C3_amended_early_return (env : WmiEnv) :
    (env.locatorHr ≠ 0 →
      WmiRequest.construct env = ⟨false, false, false, [], none⟩) ∧
    (env.locatorHr = 0 → env.connectHr ≠ 0 →
      WmiRequest.construct env = ⟨true, false, false, [], none⟩) ∧
    (env.locatorHr = 0 → env.connectHr = 0 → env.execHr ≠ 0 →
      WmiRequest.construct env = ⟨true, true, false, [], none⟩) := by
  refine ⟨?_, ?_, ?_⟩ <;> intros <;> simp_all [WmiRequest.construct]

/-- C3 amended witness: a concrete failing locator creation yields the
all-null, empty, status-unassigned request state. -/
theorem C3_amended_early_return_witness :
    WmiRequest.construct ⟨0, 1, 0, 0, []⟩ = ⟨false, false, false, [], none⟩ :=
  (C3_amended_early_return ⟨0, 1, 0, 0, []⟩).1 (by decide)

/-- C5 counterexample: construct a request that drained one object, then
move it.  The destination's result sequence is empty while the source
still holds its one result, so the result sequence did not move to the
destination; destroying the moved-from source performs one Release call
(for the retained result object), not zero. -/
theorem C5_move_leaves_results_behind :
    (WmiRequest.moveFrom
        (WmiRequest.construct ⟨0, 0, 0, 0, [⟨0, 1, objEmpty⟩, ⟨1, 0, objEmpty⟩]⟩)).1.results_
      = [] ∧
    (WmiRequest.construct ⟨0, 0, 0, 0, [⟨0, 1, objEmpty⟩, ⟨1, 0, objEmpty⟩]⟩).results_
      = [⟨some objEmpty⟩] ∧
    (WmiRequest.moveFrom
        (WmiRequest.construct ⟨0, 0, 0, 0, [⟨0, 1, objEmpty⟩, ⟨1, 0, objEmpty⟩]⟩)).2.destructorReleases
      = 1 ∧ (1 : Nat) ≠ 0 := by
  decide

/-- C5 amended: moving a WmiRequest transfers the three connection
handles (the source's handles become null, so destroying the source
performs no handle Release calls), but the result sequence and status do
not transfer: the destination starts with an empty result sequence and a
default-constructed status, while the source keeps its results and
status (and destroying it still releases each retained result object). -/
theorem C5_amended_move (r : WmiRequest) :
    (WmiRequest.moveFrom r).1.locator_ = r.locator_ ∧
    (WmiRequest.moveFrom r).1.services_ = r.services_ ∧
    (WmiRequest.moveFrom r).1.enum_ = r.enum_ ∧
    (WmiRequest.moveFrom r).2.locator_ = false ∧
    (WmiRequest.moveFrom r).2.services_ = false ∧
    (WmiRequest.moveFrom r).2.enum_ = false ∧
    (WmiRequest.moveFrom r).2.handleReleases = 0 ∧
    (WmiRequest.moveFrom r).1.results_ = [] ∧
    (WmiRequest.moveFrom r).1.status_ = none ∧
    (WmiRequest.moveFrom r).2.results_ = r.results_ ∧
    (WmiRequest.moveFrom r).2.status_ = r.status_ :=
  ⟨rfl, rfl, rfl, rfl, rfl, rfl, rfl, rfl, rfl, rfl, rfl⟩

/-- Draining a trace of K successful single-object pulls followed by one
failing pull collects exactly the K objects, in order. -/
theorem drain_success_then_fail (objs : List IWbemClassObject) (e : Int)
    (he : e < 0) (o0 : IWbemClassObject) :
    drain (objs.map (fun o => ⟨0, 1, o⟩) ++ [⟨e, 0, o0⟩]) = objs := by
  induction objs with
  | nil =>
    simp [drain, he.ne]
  | cons a rest ih =>
    simp [drain, ih]

/-- C6: when the enumerator yields K objects (each pull returning hr = 0
with count 1) and then a pull fails, the constructed request retains
exactly those K objects in the order yielded and the overall status is
the success status; this includes K = 0. -/
theorem C6_partial_drain_success (objs : List IWbemClassObject) (e : Int)
    (he : e < 0) (o0 : IWbemClassObject) (sec : Int) :
    WmiRequest.construct ⟨sec, 0, 0, 0, objs.map (fun o => ⟨0, 1, o⟩) ++ [⟨e, 0, o0⟩]⟩ =
      ⟨true, true, true, objs.map (fun o => ⟨some o⟩), some Status.success⟩ := by
  simp [WmiRequest.construct, drain_success_then_fail objs e he o0]

/-- C6 witness: one successful pull followed by a failing pull yields a
request holding exactly that one result with success status. -/
theorem C6_partial_drain_success_witness :
    WmiRequest.construct ⟨0, 0, 0, 0, [⟨0, 1, objEmpty⟩, ⟨-1, 0, objEmpty⟩]⟩ =
      ⟨true, true, true, [⟨some objEmpty⟩], some Status.success⟩ :=
  C6_partial_drain_success [objEmpty] (-1) (by decide) objEmpty 0

/-- C7 counterexample: GetVectorOfStrings on an array property with bound
pair (0, 0) yields one element (the derived count is 0 - 0 + 1 = 1), not
the empty sequence the claim asserts. -/
theorem C7_bound_pair_00_yields_one_element :
    WmiResultItem.GetVectorOfStrings
        ⟨some ⟨[("p", ⟨VarType.VT_ARRAY_BSTR, 0, "", ⟨0, 0, ["a"]⟩⟩)]⟩⟩ "p" [] =
      some ⟨Status.success, ["a"], 1⟩ ∧ (["a"] : List String) ≠ [] := by
  decide

/-- C7 amended: on a string-array property, bound pair (0, 0) yields
success with exactly one element (count = upper - lower + 1 = 1); the
empty-sequence success case is a bound pair with upper = lower - 1, such
as (0, -1). -/
theorem C7_amended_bounds (obj : IWbemClassObject) (name : String) (v : Variant)
    (s : String) (ret0 : List String) (hv : obj.get name = some v)
    (ht : v.vt = VarType.VT_ARRAY_BSTR) :
    (v.parray = ⟨0, 0, [s]⟩ →
      WmiResultItem.GetVectorOfStrings ⟨some obj⟩ name ret0 =
        some ⟨Status.success, ret0 ++ [s], 1⟩) ∧
    (v.parray = ⟨0, -1, []⟩ →
      WmiResultItem.GetVectorOfStrings ⟨some obj⟩ name ret0 =
        some ⟨Status.success, ret0, 1⟩) := by
  constructor <;>
    intro hp <;>
    simp [WmiResultItem.GetVectorOfStrings, hv, ht, hp]

/-- C7 amended witness: concrete (0, 0) array with element "a" yields
exactly that one element with success. -/
theorem C7_amended_bounds_witness :
    WmiResultItem.GetVectorOfStrings
        ⟨some ⟨[("p", ⟨VarType.VT_ARRAY_BSTR, 0, "", ⟨0, 0, ["a"]⟩⟩)]⟩⟩ "p" [] =
      some ⟨Status.success, [] ++ ["a"], 1⟩ :=
  (C7_amended_bounds ⟨[("p", ⟨VarType.VT_ARRAY_BSTR, 0, "", ⟨0, 0, ["a"]⟩⟩)]⟩ "p"
      ⟨VarType.VT_ARRAY_BSTR, 0, "", ⟨0, 0, ["a"]⟩⟩ "a" [] (by decide) rfl).1 rfl

/-- C8: on a string-array property with bounds (L, L + N - 1) holding N
elements, GetVectorOfStrings derives the count upper - lower + 1 = N,
copies all N elements into the output in the array's order, and returns
success. -/
theorem C8_count_and_order (obj : IWbemClassObject) (name : String) (v : Variant)
    (L : Int) (N : Nat) (data : List String)
    (hv : obj.get name = some v) (ht : v.vt = VarType.VT_ARRAY_BSTR)
    (hp : v.parray = ⟨L, L + N - 1, data⟩) (hlen : data.length = N) :
    WmiResultItem.GetVectorOfStrings ⟨some obj⟩ name [] =
      some ⟨Status.success, data, 1⟩ := by
  subst hlen
  have hcount : ((L + (data.length : Int) - 1) - L + 1 : Int) = (data.length : Int) := by
    ring
  simp [WmiResultItem.GetVectorOfStrings, hv, ht, hp, hcount]

/-- C8 witness: a concrete array with bounds (5, 6) holding two elements
yields exactly those two elements in order with success. -/
theorem C8_count_and_order_witness :
    WmiResultItem.GetVectorOfStrings
        ⟨some ⟨[("p", ⟨VarType.VT_ARRAY_BSTR, 0, "", ⟨5, 6, ["x", "y"]⟩⟩)]⟩⟩ "p" [] =
      some ⟨Status.success, ["x", "y"], 1⟩ :=
  C8_count_and_order ⟨[("p", ⟨VarType.VT_ARRAY_BSTR, 0, "", ⟨5, 6, ["x", "y"]⟩⟩)]⟩ "p"
    ⟨VarType.VT_ARRAY_BSTR, 0, "", ⟨5, 6, ["x", "y"]⟩⟩ 5 2 ["x", "y"]
    (by decide) rfl rfl rfl

/-- C9 counterexample: on the lookup-failure path GetBool performs zero
VariantClear calls (the payload was never obtained), so the claimed
release-exactly-once does not hold on that path as stated. -/
theorem C9_lookup_failure_performs_no_release :
    Option.map GetResult.clears
        (WmiResultItem.GetBool ⟨some objEmpty⟩ "p" false) = some 0 ∧
    (0 : Nat) ≠ 1 := by
  decide

/-- C9 amended: on every path on which the property lookup succeeded —
success, type mismatch and every intermediate failure — each getter
releases the dynamically-typed payload exactly once before returning; on
the lookup-failure path no payload exists and no release occurs.  For
GetDateTime, the helper object is released exactly once on every path on
which it was created and the intermediate string buffer is freed exactly
once on every path on which it was produced. -/
theorem C9_amended_release_discipline (obj fo : IWbemClassObject)
    (name fn : String) (v : Variant)
    (hv : obj.get name = some v) (hn : fo.get fn = none)
    (b : Bool) (n : Nat) (i : Int) (s : String) (vec : List String)
    (loc : Bool) (ft : Nat × Nat) (env : DateTimeEnv) (r : DateTimeResult)
    (hr : WmiResultItem.GetDateTime ⟨some obj⟩ name loc ft env = some r) :
    Option.map GetResult.clears (WmiResultItem.GetBool ⟨some obj⟩ name b) = some 1 ∧
    Option.map GetResult.clears (WmiResultItem.GetUChar ⟨some obj⟩ name n) = some 1 ∧
    Option.map GetResult.clears (WmiResultItem.GetUnsignedShort ⟨some obj⟩ name n) = some 1 ∧
    Option.map GetResult.clears (WmiResultItem.GetUnsignedInt32 ⟨some obj⟩ name n) = some 1 ∧
    Option.map GetResult.clears (WmiResultItem.GetLong ⟨some obj⟩ name i) = some 1 ∧
    Option.map GetResult.clears (WmiResultItem.GetUnsignedLong ⟨some obj⟩ name n) = some 1 ∧
    Option.map GetResult.clears (WmiResultItem.GetLongLong ⟨some obj⟩ name i) = some 1 ∧
    Option.map GetResult.clears (WmiResultItem.GetUnsignedLongLong ⟨some obj⟩ name n) = some 1 ∧
    Option.map GetResult.clears (WmiResultItem.GetString ⟨some obj⟩ name s) = some 1 ∧
    Option.map GetResult.clears (WmiResultItem.GetVectorOfStrings ⟨some obj⟩ name vec) = some 1 ∧
    r.clears = 1 ∧
    r.dtReleases = (if r.dtCreated then 1 else 0) ∧
    r.sysFrees = (if r.strAllocated then 1 else 0) ∧
    Option.map GetResult.clears (WmiResultItem.GetBool ⟨some fo⟩ fn b) = some 0 ∧
    Option.map GetResult.clears (WmiResultItem.GetUChar ⟨some fo⟩ fn n) = some 0 ∧
    Option.map GetResult.clears (WmiResultItem.GetUnsignedShort ⟨some fo⟩ fn n) = some 0 ∧
    Option.map GetResult.clears (WmiResultItem.GetUnsignedInt32 ⟨some fo⟩ fn n) = some 0 ∧
    Option.map GetResult.clears (WmiResultItem.GetLong ⟨some fo⟩ fn i) = some 0 ∧
    Option.map GetResult.clears (WmiResultItem.GetUnsignedLong ⟨some fo⟩ fn n) = some 0 ∧
    Option.map GetResult.clears (WmiResultItem.GetLongLong ⟨some fo⟩ fn i) = some 0 ∧
    Option.map GetResult.clears (WmiResultItem.GetUnsignedLongLong ⟨some fo⟩ fn n) = some 0 ∧
    Option.map GetResult.clears (WmiResultItem.GetString ⟨some fo⟩ fn s) = some 0 ∧
    Option.map GetResult.clears (WmiResultItem.GetVectorOfStrings ⟨some fo⟩ fn vec) = some 0 ∧
    Option.map DateTimeResult.clears (WmiResultItem.GetDateTime ⟨some fo⟩ fn loc ft env) = some 0 := by
  have hdt : r.clears = 1 ∧ r.dtReleases = (if r.dtCreated then 1 else 0) ∧
      r.sysFrees = (if r.strAllocated then 1 else 0) := by
    simp only [WmiResultItem.GetDateTime, hv] at hr
    split_ifs at hr <;> (injection hr with h; subst h; simp)
  refine ⟨?_, ?_, ?_, ?_, ?_, ?_, ?_, ?_, ?_, ?_, hdt.1, hdt.2.1, hdt.2.2,
      ?_, ?_, ?_, ?_, ?_, ?_, ?_, ?_, ?_, ?_, ?_⟩ <;>
    simp only [WmiResultItem.GetBool, WmiResultItem.GetUChar, WmiResultItem.GetUnsignedShort,
      WmiResultItem.GetUnsignedInt32, WmiResultItem.GetLong, WmiResultItem.GetUnsignedLong,
      WmiResultItem.GetLongLong, WmiResultItem.GetUnsignedLongLong, WmiResultItem.GetString,
      WmiResultItem.GetVectorOfStrings, WmiResultItem.GetDateTime, hv, hn] <;>
    first
      | rfl
      | (split <;> rfl)

/-- C9 amended witness: at a concrete VT_BSTR property with a fully
successful date-time conversion environment, GetBool performs exactly one
VariantClear. -/
theorem C9_amended_release_discipline_witness :
    Option.map GetResult.clears
        (WmiResultItem.GetBool ⟨some objBstr⟩ "p" false) = some 1 :=
  (C9_amended_release_discipline objBstr objEmpty "p" "q"
      ⟨VarType.VT_BSTR, 0, "t", arr0⟩ (by decide) (by decide)
      false 0 0 "" [] false (0, 0) ⟨0, 0, 0, 7⟩
      ⟨Status.success, (7, 0), 1, true, 1, true, 1⟩ (by decide)).1

/-- C10: on the success path GetVectorOfStrings appends the copied array
elements to the end of the caller's output vector without clearing it:
the final vector is exactly the pre-existing contents followed by the
copied elements, so no pre-existing element is removed or changed. -/
theorem C10_appends_without_clearing (obj : IWbemClassObject) (name : String)
    (v : Variant) (ret0 : List String)
    (hv : obj.get name = some v) (ht : v.vt = VarType.VT_ARRAY_BSTR) :
    WmiResultItem.GetVectorOfStrings ⟨some obj⟩ name ret0 =
      some ⟨Status.success,
            ret0 ++ v.parray.data.take (v.parray.ubound - v.parray.lbound + 1).toNat,
            1⟩ := by
  simp [WmiResultItem.GetVectorOfStrings, hv, ht]

/-- C10 witness: with pre-existing contents ["old"], a concrete (0, 0)
array holding "a" yields ["old", "a"]: the pre-existing element survives
as the prefix. -/
theorem C10_appends_without_clearing_witness :
    WmiResultItem.GetVectorOfStrings
        ⟨some ⟨[("p", ⟨VarType.VT_ARRAY_BSTR, 0, "", ⟨0, 0, ["a"]⟩⟩)]⟩⟩ "p" ["old"] =
      some ⟨Status.success, ["old"] ++ (["a"] : List String).take (((0 : Int) - 0 + 1).toNat), 1⟩ :=
  C10_appends_without_clearing ⟨[("p", ⟨VarType.VT_ARRAY_BSTR, 0, "", ⟨0, 0, ["a"]⟩⟩)]⟩ "p"
    ⟨VarType.VT_ARRAY_BSTR, 0, "", ⟨0, 0, ["a"]⟩⟩ ["old"] (by decide) rfl

end osquery
